import Mathlib

/-!
Verification of the MCP_FXOS branch-status toolchain.

This file gives a shallow embedding of the decision logic of the repository:
the branch-status classifier (`QueryTool._query_branch` and its two evidence
helpers `_check_swarm_delta` and `_check_jenkins_error`), the failures
aggregator (`QueryTool.list_failures`), the Splunk search adapter
(`SplunkClient.search` / `_wait_for_results`), the tool-dispatch facade
(`server.execute_tool`), and the two formatters
(`MetricsTool._format_metrics` / `_format_duration` and
`QueryTool._format_branch_status`).

External I/O (HTTP requests, the wall clock) is modelled by explicit
environment records: each network call becomes a field of the environment,
either a transport exception (`Except.error`) or a status code plus payload.
Python dictionaries whose keys may be absent or `None` are modelled with
`Option` fields; Python truthiness of strings is `optTruthy`.
-/

/-- Python truthiness of an optional string: `None` and the empty string are falsy. -/
def optTruthy : Option String → Bool
  | none => false
  | some s => s ≠ ""

/-- Python rendering of an optional string inside an f-string: `None` prints as "None". -/
def pyStr : Option String → String
  | none => "None"
  | some s => s

/-- Python `s[:n]` on a string: the first `n` code points. -/
def strTake (s : String) (n : Nat) : String :=
  String.mk (s.data.take n)

/-- Python `str.lower` (per-code-point case map, as for the ASCII paths here). -/
def strLower (s : String) : String :=
  String.mk (s.data.map Char.toLower)

/-- Python `str.upper` (per-code-point case map, as for the ASCII paths here). -/
def strUpper (s : String) : String :=
  String.mk (s.data.map Char.toUpper)

/-- The characters Python `str.strip()` removes by default (the ASCII ones). -/
def isPySpace (c : Char) : Bool :=
  c = ' ' || c = '\t' || c = '\n' || c = '\x0d' || c = '\x0b' || c = '\x0c'

/-- Python `str.strip()`: drop leading and trailing whitespace. -/
def strStrip (s : String) : String :=
  String.mk (((s.data.dropWhile isPySpace).reverse.dropWhile isPySpace).reverse)

/-- Python `str.endswith`. -/
def strEndsWith (s suffix : String) : Bool :=
  suffix.data.reverse.isPrefixOf s.data.reverse

/-- Contiguous-sublist test on character lists, written with `List.isPrefixOf`. -/
def containsSub (needle : List Char) : List Char → Bool
  | [] => needle.isEmpty
  | c :: rest => needle.isPrefixOf (c :: rest) || containsSub needle rest

/-- Python `needle in hay` substring test on strings. -/
def strContains (hay needle : String) : Bool :=
  containsSub needle.data hay.data

/-- One entry of `QueryTool.BRANCHES`. -/
structure BranchConfig where
  name : String
  project : String
  splunk_filter : String
  display_name : String
deriving DecidableEq

/-- The first Splunk result row as read by `_query_branch`: a JSON dictionary
whose keys may be absent (`none`). The defaults of the `dict.get` calls are
applied at the use sites, exactly as in the source. -/
structure SplunkRow where
  Review : Option String
  make_status : Option String
  bazel_status : Option String
  make_url : Option String
  bazel_url : Option String
deriving DecidableEq

/-- The environment a `QueryTool` call runs in: the configured credentials and
the behaviour of the three external backends.  `splunk` is the outcome of
`_execute_splunk_search` on a query string (a first row, or `none` for no
data / any transport failure, which that helper folds together).  `swarmFiles`
maps a review id to the Swarm response (`Except.error` = `requests` exception,
otherwise status code and the `depotFile` paths of the touched files, an
absent `depotFile` key being read as `""` by the source).  `jenkinsGet` maps a
URL to the Jenkins response (status code and body text). -/
structure QueryEnv where
  swarm_base : String
  swarm_token : String
  jenkins_user : String
  jenkins_token : String
  splunk : String → Option SplunkRow
  swarmFiles : String → Except Unit (Nat × List String)
  jenkinsGet : String → Except Unit (Nat × String)

/-- The Splunk search string built by `_query_branch` from the branch filter. -/
def searchQuery (splunkFilter : String) : String :=
  "\n        search index=ci_builds " ++ splunkFilter ++ " earliest=-24h\n" ++
  "        | head 1\n" ++
  "        | eval Review=Review\n" ++
  "        | eval make_status=coalesce(make_result, \"UNKNOWN\")\n" ++
  "        | eval bazel_status=coalesce(bazel_result, \"UNKNOWN\")\n" ++
  "        | table Review, make_status, bazel_status, make_url, bazel_url, " ++
  "make_duration, bazel_duration\n        "

/-- `QueryTool._check_swarm_delta`: true when the review touches no
bazel-related file.  Each touched path is lowercased before the three
substring/suffix tests, exactly as in the source. -/
def checkSwarmDelta (env : QueryEnv) (review : String) : Bool :=
  if env.swarm_base = "" ∨ env.swarm_token = "" ∨ review = "" then false
  else
    match env.swarmFiles review with
    | Except.error _ => false
    | Except.ok (status, files) =>
      if status ≠ 200 then false
      else files.all fun fpath =>
        let path := strLower fpath
        !(strContains path ".bazel" || strContains path "BUILD" || strEndsWith path ".bzl")

/-- `QueryTool._check_jenkins_error`: fetch the `greperror.txt` artifact of a
failed build; `some` trimmed body on HTTP 200 with non-blank body, else `none`. -/
def checkJenkinsError (env : QueryEnv) (buildUrl : String) : Option String :=
  if buildUrl = "" ∨ env.jenkins_user = "" ∨ env.jenkins_token = "" then none
  else
    match env.jenkinsGet (buildUrl ++ "/artifact/greperror.txt") with
    | Except.error _ => none
    | Except.ok (status, text) =>
      if status = 200 ∧ strStrip text ≠ "" then some (strStrip text) else none

/-- A call made to one of the two escalation adapters during classification. -/
inductive AdapterCall where
  | swarm : String → AdapterCall
  | jenkins : String → AdapterCall
deriving DecidableEq

/-- The dictionary produced by `_query_branch` (and, for the ERROR
pseudo-verdict of `list_failures`, a dictionary holding only
`branch`/`status`/`error`).  `none` stands both for an absent key and for a
`None` value; the two are distinguished nowhere the formatters below read
them with a live default. -/
structure BranchResult where
  branch : String
  display_name : Option String
  status : String
  error : Option String
  make_status : Option String
  bazel_status : Option String
  review : Option String
  review_url : Option String
  make_url : Option String
  bazel_url : Option String
deriving DecidableEq

/-- `QueryTool._query_branch`, instrumented with the list of adapter calls it
performs.  The decision tree of the source is reproduced branch for branch. -/
def queryBranchCalls (env : QueryEnv) (cfg : BranchConfig) :
    BranchResult × List AdapterCall :=
  match env.splunk (searchQuery cfg.splunk_filter) with
  | none =>
    (⟨cfg.name, some cfg.display_name, "⚠️ NO DATA", some "No builds found in last 24h",
      none, none, none, none, none, none⟩, [])
  | some row =>
    let review := row.Review.getD ""
    let makeStatus := row.make_status.getD "UNKNOWN"
    let bazelStatus := row.bazel_status.getD "UNKNOWN"
    let makeUrl := row.make_url.getD ""
    let bazelUrl := row.bazel_url.getD ""
    let reviewUrl :=
      if review = "" then "" else "https://sp4-fp-swarm.cisco.com/reviews/" ++ review
    let base : BranchResult :=
      ⟨cfg.name, some cfg.display_name, "", none, some makeStatus, some bazelStatus,
        some review, some reviewUrl, some makeUrl, some bazelUrl⟩
    if makeStatus = "SUCCESS" ∧ bazelStatus = "SUCCESS" then
      ({ base with status := "✅ SUCCESS", error := none }, [])
    else
      let swarmCalls : List AdapterCall :=
        if review = "" then [] else [AdapterCall.swarm review]
      if review ≠ "" ∧ checkSwarmDelta env review = true then
        ({ base with
            status := "⚠️ DELTA CHANGE",
            error := some "Makefile-only change (no .bazel/BUILD files)" }, swarmCalls)
      else
        let failedUrl := if makeStatus ≠ "SUCCESS" then makeUrl else bazelUrl
        match checkJenkinsError env failedUrl with
        | some jerr =>
          ({ base with
              status := "❌ PLATFORM FAILURE",
              error := some (strTake jerr 200) },
            swarmCalls ++ [AdapterCall.jenkins failedUrl])
        | none =>
          ({ base with
              status := "⚠️ INTERMITTENT",
              error := some "Build failed without specific error pattern" },
            swarmCalls ++ [AdapterCall.jenkins failedUrl])

/-- `QueryTool._query_branch`: the classification verdict alone. -/
def queryBranch (env : QueryEnv) (cfg : BranchConfig) : BranchResult :=
  (queryBranchCalls env cfg).1

/-- The five status tags of the classifier. -/
def verdictTags : List String :=
  ["✅ SUCCESS", "⚠️ NO DATA", "⚠️ DELTA CHANGE", "❌ PLATFORM FAILURE", "⚠️ INTERMITTENT"]

/-- `QueryTool.BRANCHES["fxos_19"]`. -/
def fxos19 : BranchConfig :=
  ⟨"fxos_19", "boreas", "branch=\"uxbridge/FXOS_2_19_MAIN\"", "FXOS 2.19"⟩

/-- `QueryTool.BRANCHES["fxos_18"]`. -/
def fxos18 : BranchConfig :=
  ⟨"fxos_18", "boreas", "branch=\"temple/FXOS_2_18_MAIN\"", "FXOS 2.18"⟩

/-- `QueryTool.BRANCHES["lina"]`. -/
def linaCfg : BranchConfig := ⟨"lina", "lina", "branch=\"cairo\"", "LINA Cairo"⟩

/-- `QueryTool.BRANCHES["cairo"]`, the alias entry for `lina`. -/
def cairoCfg : BranchConfig := ⟨"cairo", "lina", "branch=\"cairo\"", "Cairo"⟩

/-- `QueryTool.BRANCHES` in Python dict insertion order. -/
def BRANCHES : List (String × BranchConfig) :=
  [("fxos_19", fxos19), ("fxos_18", fxos18), ("lina", linaCfg), ("cairo", cairoCfg)]

/-- The ERROR pseudo-verdict built in the `except` arm of `list_failures`:
a dictionary with only `branch`, `status` and `error` keys. -/
def errorVerdict (cfg : BranchConfig) (msg : String) : BranchResult :=
  ⟨cfg.name, none, "❌ ERROR", some msg, none, none, none, none, none, none⟩

/-- `QueryTool._format_failures_list`. -/
def formatFailuresList (failures : List BranchResult) : String :=
  if failures = [] then "✅ **All branches passing!**"
  else
    let header : List String :=
      ["❌ **" ++ Nat.repr failures.length ++ " Branch(es) Failing**", ""]
    let body := failures.flatMap fun f =>
      let branch := f.display_name.getD f.branch
      ["• **" ++ branch ++ "**: " ++ f.status] ++
        (if optTruthy f.error then ["  └─ " ++ strTake (pyStr f.error) 100] else [])
    String.intercalate "\n" (header ++ body)

/-- The dictionary returned by `QueryTool.list_failures`. -/
structure ListFailuresResult where
  total_branches : Nat
  failing_count : Nat
  failures : List BranchResult
  formatted_output : String
deriving DecidableEq

/-- `QueryTool.list_failures`, parametrised by the outcome of each branch's
classification (`Except.error msg` models `_query_branch` raising with
message `msg`; the source catches the exception per branch).  The fold
carries the `results` and `failures` lists of the source. -/
def listFailuresWith (classify : BranchConfig → Except String BranchResult) :
    ListFailuresResult :=
  let step := fun (acc : List BranchResult × List BranchResult)
      (entry : String × BranchConfig) =>
    if entry.1 = "cairo" then acc
    else
      match classify entry.2 with
      | Except.ok r =>
        (acc.1 ++ [r], if r.status ≠ "✅ SUCCESS" then acc.2 ++ [r] else acc.2)
      | Except.error e => (acc.1, acc.2 ++ [errorVerdict entry.2 e])
  let state := BRANCHES.foldl step ([], [])
  ⟨state.1.length, state.2.length, state.2, formatFailuresList state.2⟩

/-- `QueryTool.list_failures` in the environment model: each branch is
classified by `_query_branch` (which, with backends modelled as total
responses, does not raise). -/
def listFailures (env : QueryEnv) : ListFailuresResult :=
  listFailuresWith fun cfg => Except.ok (queryBranch env cfg)

/-- `QueryTool._format_branch_status`.  The `dict.get` defaults of the source
("Unknown", "—") are unreachable for the dictionaries `_query_branch`
produces, whose keys are always present; a `None` value prints as "None"
inside the f-strings, as in Python. -/
def formatBranchStatus (result : BranchResult) : String :=
  let branch := result.display_name.getD result.branch
  let reviewUrl := result.review_url.getD ""
  let lines : List String :=
    ["**" ++ branch ++ "** - " ++ result.status,
     "",
     "• **Make:** " ++ (if result.make_status = some "SUCCESS" then "✅" else "❌") ++
       " " ++ pyStr result.make_status,
     "• **Bazel:** " ++ (if result.bazel_status = some "SUCCESS" then "✅" else "❌") ++
       " " ++ pyStr result.bazel_status]
  let lines := lines ++
    (if optTruthy result.review then
      (if reviewUrl ≠ "" then
        ["• **Review:** [CL#" ++ pyStr result.review ++ "](" ++ reviewUrl ++ ")"]
       else ["• **Review:** CL#" ++ pyStr result.review])
     else [])
  let lines := lines ++
    (if optTruthy result.error then ["", "**Error:** " ++ pyStr result.error] else [])
  String.intercalate "\n" lines

/-- The query-tool formatter as it runs in the process environment: it has
access to the wall clock (`now`) like every tool method, and never reads it. -/
def formatBranchStatusAt (now : String) (result : BranchResult) : String :=
  formatBranchStatus result

/-- Python `f"{n:02d}"` for a non-negative integer: the decimal rendering,
zero-filled on the left to a minimum width of 2. -/
def fmt02 (n : Nat) : String :=
  String.mk (List.replicate (2 - (Nat.repr n).length) '0') ++ Nat.repr n

/-- `MetricsTool._format_duration` for a non-negative whole seconds count
(the `int(round(seconds))` of the source is the identity there). -/
def formatDuration (seconds : Nat) : String :=
  fmt02 (seconds / 60) ++ ":" ++ fmt02 (seconds % 60)

/-- Python `f"{s:<w}"`: pad on the right with spaces to width `w`. -/
def padRight (s : String) (w : Nat) : String :=
  s ++ String.mk (List.replicate (w - s.length) ' ')

/-- Python `f"{s:>w}"`: pad on the left with spaces to width `w`. -/
def padLeft (s : String) (w : Nat) : String :=
  String.mk (List.replicate (w - s.length) ' ') ++ s

/-- Group a reversed digit list in threes, inserting commas. -/
def commaRev : List Char → List Char
  | a :: b :: c :: d :: rest => a :: b :: c :: ',' :: commaRev (d :: rest)
  | l => l

/-- Python `f"{n:,}"` for a non-negative integer: thousands separators. -/
def fmtComma (n : Nat) : String :=
  String.mk (commaRev (Nat.repr n).data.reverse).reverse

/-- Python `f"{q:.1f}"` for the non-negative percentages the metrics tool
computes, on the rational value (the source's binary float and its
round-half-even tie rule are approximated by exact rationals and
`round`). -/
def fmtFixed1 (q : ℚ) : String :=
  let n := (round (q * 10) : ℤ).toNat
  Nat.repr (n / 10) ++ "." ++ Nat.repr (n % 10)

/-- One row of the structured metrics payload, as built by
`MetricsTool._collect_platform_metrics`. -/
structure MetricsRow where
  platform : String
  duration_mmss : Option String
  cache_hit : Option Nat
  cache_total : Option Nat
  cache_pct : Option ℚ
  errors : List String
deriving DecidableEq

/-- `MetricsTool._format_metrics`.  `nowStr` is the wall-clock reading the
source takes with `datetime.now().strftime("%Y-%m-%d %H:%M UTC")`; the
`job_path` parameter is accepted and unused, as in the source. -/
def formatMetrics (rows : List MetricsRow) (jobType : String) (buildNumber : Nat)
    (jobPath : String) (nowStr : String) : String :=
  if rows = [] then "🔧 Jenkins Build Metrics\nNo data available"
  else
    let issues := (rows.filter fun r => r.errors ≠ []).length
    let header : List String :=
      ["🔧 **Jenkins Build Metrics - " ++ jobType ++ "**",
       "Build #" ++ Nat.repr buildNumber ++ " | Platforms: " ++ Nat.repr rows.length ++
         " | Issues: " ++ Nat.repr issues,
       "",
       "```",
       padRight "Platform" 10 ++ " " ++ padLeft "Build Time" 12 ++ " " ++
         padLeft "Cache Hit %" 12 ++ " " ++ padLeft "Hits / Total" 15 ++ " " ++
         padRight "Status" 15,
       String.mk (List.replicate 70 '-')]
    let body := rows.map fun row =>
      let plat := strUpper row.platform
      let dur := match row.duration_mmss with
        | some s => if s = "" then "—" else s
        | none => "—"
      let pctStr := match row.cache_pct with
        | some q => fmtFixed1 q ++ "%"
        | none => "—"
      let ratio := match row.cache_hit, row.cache_total with
        | some h, some t => fmtComma h ++ " / " ++ fmtComma t
        | _, _ => "—"
      let status := match row.errors with
        | [] => "✅ OK"
        | e :: _ => "⚠️ " ++ strTake e 20
      padRight plat 10 ++ " " ++ padLeft dur 12 ++ " " ++ padLeft pctStr 12 ++ " " ++
        padLeft ratio 15 ++ " " ++ padRight status 15
    String.intercalate "\n"
      (header ++ body ++ ["```", "", "*Generated: " ++ nowStr ++ "*"])

/-- A Splunk result row: the field/value pairs of one JSON result object. -/
abbrev SplunkResultRow := List (String × String)

/-- Environment of `SplunkClient`: configured credentials, the job-creation
response (`Except.error` = `requests` exception, otherwise HTTP status and the
`sid` field of the JSON body), the i-th status poll of the job (status code
and the `isDone` flag), and the results fetch issued right after the i-th
poll (status code and the `results` array). -/
structure SplunkEnv where
  host : String
  token : String
  createJob : Except Unit (Nat × Option String)
  polls : Nat → Except Unit (Nat × Bool)
  fetchResults : Nat → Except Unit (Nat × List SplunkResultRow)

/-- `SplunkClient._wait_for_results`: the polling loop, with one unit of fuel
per loop iteration (the source sleeps 1 second per iteration and loops while
`time.time() - start_time < timeout`, so a timeout of `t` seconds allows at
most `t` polls).  Every exception, non-200 status poll, and non-200 results
fetch breaks out of the loop and yields `[]`. -/
def waitForResults (env : SplunkEnv) : Nat → Nat → List SplunkResultRow
  | 0, _ => []
  | fuel + 1, i =>
    match env.polls i with
    | Except.error _ => []
    | Except.ok (status, isDone) =>
      if status ≠ 200 then []
      else if isDone then
        match env.fetchResults i with
        | Except.error _ => []
        | Except.ok (fstatus, rows) => if fstatus = 200 then rows else []
      else waitForResults env fuel (i + 1)

/-- `SplunkClient.search` (the query/earliest/latest strings only shape the
HTTP request and are absorbed into `env.createJob`): missing credentials, a
failed or non-201 job submission, and a falsy job id all return `[]`;
otherwise the polling loop runs with `timeout` units of fuel. -/
def splunkSearch (env : SplunkEnv) (timeout : Nat) : List SplunkResultRow :=
  if env.host = "" ∨ env.token = "" then []
  else
    match env.createJob with
    | Except.error _ => []
    | Except.ok (status, sid) =>
      if status = 201 then
        match sid with
        | none => []
        | some jobId => if jobId = "" then [] else waitForResults env timeout 0
      else []

/-- The keys of the `TOOLS` registry of `server.py`, in insertion order. -/
def toolNames : List String :=
  ["get_metrics", "query_branch", "start_build", "list_failures", "repackage"]

/-- The required positional parameters of the method `execute_tool` invokes
for each registered tool, read off the `execute` (resp. `list_failures`)
signatures of the tool classes. -/
def requiredArgs : String → List String
  | "get_metrics" => ["job_type"]
  | "query_branch" => ["branch"]
  | "start_build" => ["pipeline", "branch"]
  | "list_failures" => []
  | "repackage" => []
  | _ => []

/-- The optional (defaulted) parameters of the same methods. -/
def optionalArgs : String → List String
  | "get_metrics" => ["build_number"]
  | "start_build" => ["parameters"]
  | "repackage" => ["pipeline", "build_number"]
  | _ => []

/-- Outcome of the `/tools/execute` Flask handler, by response class. -/
inductive DispatchOutcome where
  | ok : DispatchOutcome
  | badRequest : String → DispatchOutcome
  | notFound : String → List String → DispatchOutcome
  | serverError : String → DispatchOutcome
deriving DecidableEq

/-- CPython keyword-argument binding for `tool.execute(**args)` /
`tool.list_failures(**args)`: an unexpected keyword or a missing required
positional argument raises `TypeError` (modelled as `Except.error` with the
core of the message).  Only the argument names matter to binding. -/
def bindArgs (tool : String) (args : List String) : Except String Unit :=
  match args.find? (fun a =>
      !(requiredArgs tool).contains a && !(optionalArgs tool).contains a) with
  | some a => Except.error ("got an unexpected keyword argument " ++ a)
  | none =>
    match (requiredArgs tool).find? (fun p => !args.contains p) with
    | some p => Except.error ("missing 1 required positional argument: " ++ p)
    | none => Except.ok ()

/-- `server.execute_tool`: the dispatch facade.  A falsy tool name is a 400,
an unregistered name a 404 listing the registry, and any exception from the
tool call — including the `TypeError` of a failed argument binding — is
caught by the blanket `except` and surfaced as a 500 with the exception
text.  There is no required-parameter validation before the call. -/
def executeTool (toolName : Option String) (args : List String) : DispatchOutcome :=
  if optTruthy toolName = false then DispatchOutcome.badRequest "tool name required"
  else
    let name := toolName.getD ""
    if name ∈ toolNames then
      match bindArgs name args with
      | Except.error msg => DispatchOutcome.serverError msg
      | Except.ok _ => DispatchOutcome.ok
    else DispatchOutcome.notFound ("Unknown tool: " ++ name) toolNames

/-- The HTTP status code each outcome of `execute_tool` is returned with. -/
def httpStatus : DispatchOutcome → Nat
  | DispatchOutcome.ok => 200
  | DispatchOutcome.badRequest _ => 400
  | DispatchOutcome.notFound _ _ => 404
  | DispatchOutcome.serverError _ => 500

set_option maxRecDepth 10000

/-- Decimal value of a digit string: the specification-side reading of a
rendered number, used to state correctness of the duration formatter. -/
def decimalVal (s : String) : Nat :=
  s.data.foldl (fun a c => a * 10 + (c.toNat - 48)) 0

/-- Fixture: an environment whose search backend returns no row. -/
def envNoData : QueryEnv :=
  ⟨"https://swarm", "tok", "user", "jtok", fun _ => none,
    fun _ => Except.error (), fun _ => Except.error ()⟩

/-- Fixture: a configured Swarm backend reporting that review 12345 touched
exactly one file, `pkg/BUILD` — a Bazel build-manifest file. -/
def envBuildFile : QueryEnv :=
  ⟨"https://swarm", "tok", "user", "jtok", fun _ => none,
    fun _ => Except.ok (200, ["pkg/BUILD"]), fun _ => Except.error ()⟩

/-- Fixture: a 250-character error summary. -/
def summary250 : String := String.mk (List.replicate 250 'a')

/-- Fixture: a failing build row (make failed, bazel succeeded, no review). -/
def rowMakeFail : SplunkRow :=
  ⟨some "", some "FAILURE", some "SUCCESS", some "http://jenkins/job/make/1", some "http://jenkins/job/bazel/1"⟩

/-- Fixture: environment for the platform-failure path — the search backend
returns `rowMakeFail` and Jenkins serves a 250-character `greperror.txt`. -/
def envPlatFail : QueryEnv :=
  ⟨"", "", "user", "jtok", (fun _ => some rowMakeFail),
    (fun _ => Except.error ()), (fun _ => Except.ok (200, summary250))⟩

/-- Fixture: a classification behaviour in which every branch raises. -/
def classifyBoom : BranchConfig → Except String BranchResult :=
  fun _ => Except.error "boom"

/-- Fixture: one metrics row with a fetch error and no cache data. -/
def mrowErr : MetricsRow := ⟨"arm", none, none, none, none, ["Outfile: HTTP 404"]⟩

/-- Fixture: a Splunk environment whose job never completes: credentials are
configured, the job is created, and every status poll reports not done. -/
def envPollForever : SplunkEnv :=
  ⟨"https://splunk:8089", "tok", Except.ok (201, some "sid1"),
    fun _ => Except.ok (200, false), fun _ => Except.ok (200, [])⟩

/-- C1: for every branch config and every combination of adapter responses, a
single classification call produces exactly one of the five verdict tags —
the decision tree is total (the status of the result is always in
`verdictTags`) and the tags are mutually exclusive (the five tags are
pairwise distinct, so membership determines a unique tag). -/
theorem queryBranch_verdict_total_exclusive (env : QueryEnv) (cfg : BranchConfig) :
    (queryBranch env cfg).status ∈ verdictTags ∧ verdictTags.Nodup := by
  refine ⟨?_, by decide⟩
  unfold queryBranch queryBranchCalls
  cases env.splunk (searchQuery cfg.splunk_filter) with
  | none => simp [verdictTags]
  | some row =>
    dsimp only
    split
    · simp [verdictTags]
    · split
      · simp [verdictTags]
      · split <;> simp [verdictTags]

/-- C2: whenever the search backend returns no row for the branch's query,
classification returns the NO DATA verdict with error text
"No builds found in last 24h", and neither the review-diff (Swarm) adapter
nor the build-log-evidence (Jenkins) adapter is called. -/
theorem queryBranch_no_data (env : QueryEnv) (cfg : BranchConfig)
    (h : env.splunk (searchQuery cfg.splunk_filter) = none) :
    (queryBranch env cfg).status = "⚠️ NO DATA" ∧
    (queryBranch env cfg).error = some "No builds found in last 24h" ∧
    (queryBranchCalls env cfg).2 = [] := by
  unfold queryBranch queryBranchCalls
  rw [h]
  exact ⟨rfl, rfl, rfl⟩

/-- Witness for C2 at a concrete environment and the fxos_19 config. -/
theorem queryBranch_no_data_witness :
    (queryBranch envNoData fxos19).status = "⚠️ NO DATA" ∧
    (queryBranch envNoData fxos19).error = some "No builds found in last 24h" ∧
    (queryBranchCalls envNoData fxos19).2 = [] :=
  queryBranch_no_data envNoData fxos19 rfl

/-- C3 (failing input): with configured credentials and a 200 response, a
review whose only touched file is the Bazel build manifest `pkg/BUILD` is
still classified as a non-build ("Makefile-only") change: the source
lowercases each path before testing, so its uppercase `"BUILD" in path`
test can never fire.  The claim requires `false` here (the change set
contains a build-manifest file), but the code returns `true`. -/
theorem swarmDelta_accepts_build_manifest :
    checkSwarmDelta envBuildFile "12345" = true ∧
    envBuildFile.swarmFiles "12345" = Except.ok (200, ["pkg/BUILD"]) ∧
    strLower "pkg/BUILD" = "pkg/build" ∧
    strContains (strLower "pkg/BUILD") "BUILD" = false :=
  ⟨by decide, rfl, by decide, by decide⟩

/-- C4: for a failing record to which the delta-change step did not apply,
the classifier calls the build-log-evidence adapter on the make URL when the
make status is not SUCCESS and otherwise on the bazel URL; a non-empty
trimmed summary yields the PLATFORM FAILURE verdict with the error text
truncated to at most 200 characters (exactly 200 for a 250-character
summary). -/
theorem queryBranch_platform_failure (env : QueryEnv) (cfg : BranchConfig)
    (row : SplunkRow) (summary : String)
    (hrow : env.splunk (searchQuery cfg.splunk_filter) = some row)
    (hfail : ¬(row.make_status.getD "UNKNOWN" = "SUCCESS" ∧
               row.bazel_status.getD "UNKNOWN" = "SUCCESS"))
    (hnodelta : row.Review.getD "" = "" ∨
               checkSwarmDelta env (row.Review.getD "") = false)
    (hjenkins : checkJenkinsError env
        (if row.make_status.getD "UNKNOWN" ≠ "SUCCESS" then row.make_url.getD ""
         else row.bazel_url.getD "") = some summary) :
    (queryBranch env cfg).status = "❌ PLATFORM FAILURE" ∧
    (queryBranch env cfg).error = some (strTake summary 200) ∧
    AdapterCall.jenkins
        (if row.make_status.getD "UNKNOWN" ≠ "SUCCESS" then row.make_url.getD ""
         else row.bazel_url.getD "") ∈ (queryBranchCalls env cfg).2 ∧
    (strTake summary 200).length ≤ 200 ∧
    (summary.length = 250 → (strTake summary 200).length = 200) := by
  have hnd : ¬(row.Review.getD "" ≠ "" ∧
      checkSwarmDelta env (row.Review.getD "") = true) := by
    rcases hnodelta with h | h
    · rintro ⟨h1, _⟩; exact h1 h
    · rintro ⟨_, h2⟩; rw [h] at h2; exact Bool.false_ne_true h2
  have hlen : ∀ s : String, (strTake s 200).length = min 200 s.length := by
    intro s
    show (s.data.take 200).length = min 200 s.length
    rw [List.length_take]
    rfl
  have hq : queryBranchCalls env cfg =
      (⟨cfg.name, some cfg.display_name, "❌ PLATFORM FAILURE", some (strTake summary 200),
        some (row.make_status.getD "UNKNOWN"), some (row.bazel_status.getD "UNKNOWN"),
        some (row.Review.getD ""),
        some (if row.Review.getD "" = "" then ""
              else "https://sp4-fp-swarm.cisco.com/reviews/" ++ row.Review.getD ""),
        some (row.make_url.getD ""), some (row.bazel_url.getD "")⟩,
       (if row.Review.getD "" = "" then [] else [AdapterCall.swarm (row.Review.getD "")]) ++
         [AdapterCall.jenkins
           (if row.make_status.getD "UNKNOWN" ≠ "SUCCESS" then row.make_url.getD ""
            else row.bazel_url.getD "")]) := by
    unfold queryBranchCalls
    rw [hrow]
    dsimp only
    rw [if_neg hfail, if_neg hnd, hjenkins]
  refine ⟨?_, ?_, ?_, ?_, ?_⟩
  · show (queryBranchCalls env cfg).1.status = _
    rw [hq]
  · show (queryBranchCalls env cfg).1.error = _
    rw [hq]
  · rw [hq]
    exact List.mem_append_right _ (List.mem_singleton_self _)
  · rw [hlen]; omega
  · intro h250; rw [hlen, h250]; omega

/-- Witness for C4: make failed and Jenkins serves a 250-character summary;
the verdict is PLATFORM FAILURE and the error text has exactly 200
characters. -/
theorem queryBranch_platform_failure_witness :
    (queryBranch envPlatFail fxos19).status = "❌ PLATFORM FAILURE" ∧
    (queryBranch envPlatFail fxos19).error = some (strTake summary250 200) ∧
    (strTake summary250 200).length = 200 := by
  have h := queryBranch_platform_failure envPlatFail fxos19 rowMakeFail summary250
    rfl (by decide) (Or.inl rfl) (by decide)
  exact ⟨h.1, h.2.1, h.2.2.2.2 (by decide)⟩

/-- C5: `list_failures` classifies exactly the non-alias branch configs — the
three distinct branches fxos_19, fxos_18 and lina, excluding the cairo
alias.  For every classification behaviour, each scanned branch contributes
independently: a branch whose classification raises is recorded as an ERROR
pseudo-verdict carrying the exception message while the remaining branches
are still classified and returned, and the failing set consists of exactly
the verdicts whose tag is not SUCCESS. -/
theorem listFailures_scans_non_alias (classify : BranchConfig → Except String BranchResult) :
    (BRANCHES.filter fun e => e.1 ≠ "cairo").map Prod.fst = ["fxos_19", "fxos_18", "lina"] ∧
    ((BRANCHES.filter fun e => e.1 ≠ "cairo").map Prod.fst).Nodup ∧
    (listFailuresWith classify).failures =
      (BRANCHES.filter fun e => e.1 ≠ "cairo").flatMap (fun e =>
        match classify e.2 with
        | Except.ok r => if r.status ≠ "✅ SUCCESS" then [r] else []
        | Except.error msg => [errorVerdict e.2 msg]) := by
  refine ⟨by decide, by decide, ?_⟩
  cases h1 : classify fxos19 <;> cases h2 : classify fxos18 <;> cases h3 : classify linaCfg <;>
    simp [listFailuresWith, BRANCHES, h1, h2, h3, List.foldl, List.filter, List.flatMap] <;>
    (try (split_ifs <;> simp))

/-- C10: `total_branches` counts only the branches whose classification
completed without raising, while a branch that raised is still appended to
the failures list; when every branch raises, the failing count (3) exceeds
the total count (0). -/
theorem listFailures_error_counting :
    (∀ classify : BranchConfig → Except String BranchResult,
      (listFailuresWith classify).total_branches =
        ((BRANCHES.filter fun e => e.1 ≠ "cairo").filter
          (fun e => (classify e.2).isOk)).length) ∧
    (listFailuresWith classifyBoom).total_branches = 0 ∧
    (listFailuresWith classifyBoom).failing_count = 3 ∧
    (listFailuresWith classifyBoom).failures =
      [errorVerdict fxos19 "boom", errorVerdict fxos18 "boom", errorVerdict linaCfg "boom"] ∧
    (listFailuresWith classifyBoom).total_branches <
      (listFailuresWith classifyBoom).failing_count := by
  refine ⟨?_, by decide, by decide, by decide, by decide⟩
  intro classify
  cases h1 : classify fxos19 <;> cases h2 : classify fxos18 <;> cases h3 : classify linaCfg <;>
    simp [listFailuresWith, BRANCHES, h1, h2, h3, List.foldl, List.filter, Except.isOk,
      Except.toBool] <;>
    (try (split_ifs <;> simp))

/-- Helper: if every poll within the fuel budget reports "not done", the
polling loop times out and yields the empty result. -/
theorem waitForResults_timeout (env : SplunkEnv) :
    ∀ fuel i, (∀ j, j < fuel → env.polls (i + j) = Except.ok (200, false)) →
    waitForResults env fuel i = [] := by
  intro fuel
  induction fuel with
  | zero => intro i _; rfl
  | succ fuel ih =>
    intro i h
    have h0 : env.polls i = Except.ok (200, false) := by
      have := h 0 (Nat.succ_pos _)
      simpa using this
    have step : waitForResults env (fuel + 1) i = waitForResults env fuel (i + 1) := by
      rw [waitForResults, h0]
      simp
    rw [step]
    exact ih (i + 1) fun j hj => by
      have hp := h (j + 1) (by omega)
      rw [show i + (j + 1) = i + 1 + j by omega] at hp
      exact hp

/-- Helper: a transport failure at poll `k` — an exception, a non-200 status
poll, or (after completion) a failed or non-200 results fetch — makes the
polling loop yield the empty result. -/
theorem waitForResults_fail_at (env : SplunkEnv) :
    ∀ k fuel i, k < fuel →
    (∀ j, j < k → env.polls (i + j) = Except.ok (200, false)) →
    (env.polls (i + k) = Except.error () ∨
     (∃ st d, st ≠ 200 ∧ env.polls (i + k) = Except.ok (st, d)) ∨
     (env.polls (i + k) = Except.ok (200, true) ∧
       (env.fetchResults (i + k) = Except.error () ∨
        ∃ st rows, st ≠ 200 ∧ env.fetchResults (i + k) = Except.ok (st, rows)))) →
    waitForResults env fuel i = [] := by
  intro k
  induction k with
  | zero =>
    intro fuel i hk _ hfail
    obtain ⟨fuel, rfl⟩ : ∃ f, fuel = f + 1 := ⟨fuel - 1, by omega⟩
    simp only [Nat.add_zero] at hfail
    rcases hfail with h | ⟨st, d, hst, h⟩ | ⟨h, hf⟩
    · rw [waitForResults, h]
    · rw [waitForResults, h]
      simp [hst]
    · rw [waitForResults, h]
      rcases hf with hf | ⟨st, rows, hst, hf⟩
      · simp [hf]
      · simp [hf, hst]
  | succ k ih =>
    intro fuel i hk hbefore hfail
    obtain ⟨fuel, rfl⟩ : ∃ f, fuel = f + 1 := ⟨fuel - 1, by omega⟩
    have h0 : env.polls i = Except.ok (200, false) := by
      have := hbefore 0 (Nat.succ_pos _)
      simpa using this
    have step : waitForResults env (fuel + 1) i = waitForResults env fuel (i + 1) := by
      rw [waitForResults, h0]
      simp
    rw [step]
    refine ih fuel (i + 1) (by omega) ?_ ?_
    · intro j hj
      have hp := hbefore (j + 1) (by omega)
      rw [show i + (j + 1) = i + 1 + j by omega] at hp
      exact hp
    · rw [show i + 1 + k = i + (k + 1) by omega]
      exact hfail

/-- C6: the search adapter returns a (possibly empty) sequence of rows and
never raises: missing credentials, a failed job submission (exception or
non-201 status), a poll that never completes within the timeout budget, and
a transport failure at any later stage (poll exception, non-200 poll, failed
or non-200 results fetch) each yield the empty sequence. -/
theorem splunkSearch_degrades_to_empty (env : SplunkEnv) (timeout : Nat) :
    (env.host = "" ∨ env.token = "" → splunkSearch env timeout = []) ∧
    (env.createJob = Except.error () → splunkSearch env timeout = []) ∧
    (∀ st sid, env.createJob = Except.ok (st, sid) → st ≠ 201 →
      splunkSearch env timeout = []) ∧
    ((∀ i, i < timeout → env.polls i = Except.ok (200, false)) →
      splunkSearch env timeout = []) ∧
    (∀ k, k < timeout →
      (∀ j, j < k → env.polls j = Except.ok (200, false)) →
      (env.polls k = Except.error () ∨
       (∃ st d, st ≠ 200 ∧ env.polls k = Except.ok (st, d)) ∨
       (env.polls k = Except.ok (200, true) ∧
         (env.fetchResults k = Except.error () ∨
          ∃ st rows, st ≠ 200 ∧ env.fetchResults k = Except.ok (st, rows)))) →
      splunkSearch env timeout = []) := by
  refine ⟨?_, ?_, ?_, ?_, ?_⟩
  · intro h
    unfold splunkSearch
    rw [if_pos h]
  · intro h
    unfold splunkSearch
    split
    · rfl
    · rw [h]
  · intro st sid h hne
    unfold splunkSearch
    split
    · rfl
    · rw [h]
      simp [hne]
  · intro h
    unfold splunkSearch
    split
    · rfl
    · cases hc : env.createJob with
      | error e => rfl
      | ok p =>
        obtain ⟨st, sid⟩ := p
        by_cases h201 : st = 201
        · subst h201
          cases sid with
          | none => simp
          | some jobId =>
            by_cases hj : jobId = ""
            · simp [hj]
            · simp only [hj, if_true, if_neg hj]
              apply waitForResults_timeout
              intro j hj'
              simpa using h j hj'
        · simp [h201]
  · intro k hk hbefore hfail
    unfold splunkSearch
    split
    · rfl
    · cases hc : env.createJob with
      | error e => rfl
      | ok p =>
        obtain ⟨st, sid⟩ := p
        by_cases h201 : st = 201
        · subst h201
          cases sid with
          | none => simp
          | some jobId =>
            by_cases hj : jobId = ""
            · simp [hj]
            · simp only [hj, if_true, if_neg hj]
              refine waitForResults_fail_at env k timeout 0 hk ?_ ?_
              · intro j hj'
                simpa using hbefore j hj'
              · simpa using hfail
        · simp [h201]

/-- Witness for C6: a configured environment whose job never completes within
a 5-second timeout yields the empty sequence. -/
theorem splunkSearch_degrades_witness : splunkSearch envPollForever 5 = [] :=
  (splunkSearch_degrades_to_empty envPollForever 5).2.2.2.1 (fun _ _ => rfl)

/-- C7 (counterexample): an execute request naming the registered tool
query_branch with its required parameter branch missing is answered with a
500 server-error response (the TypeError of the unchecked call, caught by
the blanket except), not a 4xx-class response. -/
theorem executeTool_missing_param_is_500 :
    executeTool (some "query_branch") [] =
      DispatchOutcome.serverError "missing 1 required positional argument: branch" ∧
    httpStatus (executeTool (some "query_branch") []) = 500 ∧
    ¬(400 ≤ httpStatus (executeTool (some "query_branch") []) ∧
      httpStatus (executeTool (some "query_branch") []) < 500) := by
  refine ⟨by decide, by decide, by decide⟩

/-- C7 (amended): a request naming a registered tool whose argument names are
all declared parameters but which omits a required parameter fails at
argument binding; the resulting TypeError is surfaced as a 5xx-class (500)
response whose error text names the (first) missing parameter. -/
theorem executeTool_missing_required_param (name : String) (args : List String) (p : String)
    (hn : name ∈ toolNames) (hreq : p ∈ requiredArgs name)
    (hmiss : args.contains p = false)
    (hvalid : ∀ a ∈ args,
      ((requiredArgs name).contains a || (optionalArgs name).contains a) = true) :
    ∃ q, q ∈ requiredArgs name ∧ args.contains q = false ∧
      executeTool (some name) args =
        DispatchOutcome.serverError ("missing 1 required positional argument: " ++ q) ∧
      httpStatus (executeTool (some name) args) = 500 := by
  have hne : name ≠ "" := by
    rintro rfl
    exact absurd hn (by decide)
  have hnoua : args.find? (fun a =>
      !(requiredArgs name).contains a && !(optionalArgs name).contains a) = none := by
    rw [List.find?_eq_none]
    intro a ha
    have h := hvalid a ha
    intro hcontra
    rw [Bool.and_eq_true, Bool.not_eq_true', Bool.not_eq_true'] at hcontra
    rw [hcontra.1, hcontra.2] at h
    exact Bool.false_ne_true h
  have hsome : ((requiredArgs name).find? (fun q => !args.contains q)).isSome := by
    rw [List.find?_isSome]
    refine ⟨p, hreq, ?_⟩
    show (!args.contains p) = true
    rw [hmiss]
    rfl
  obtain ⟨q, hq⟩ := Option.isSome_iff_exists.mp hsome
  have hqmem : q ∈ requiredArgs name := List.mem_of_find?_eq_some hq
  have hqpred : args.contains q = false := by
    simpa using List.find?_some hq
  have hbind : bindArgs name args =
      Except.error ("missing 1 required positional argument: " ++ q) := by
    unfold bindArgs
    rw [hnoua, hq]
  refine ⟨q, hqmem, hqpred, ?_, ?_⟩
  · unfold executeTool
    rw [if_neg (by simp [optTruthy, hne])]
    simp only [Option.getD_some]
    rw [if_pos hn, hbind]
  · unfold executeTool
    rw [if_neg (by simp [optTruthy, hne])]
    simp only [Option.getD_some]
    rw [if_pos hn, hbind]
    rfl

/-- Witness for the amended C7 at the concrete request (query_branch, no
arguments). -/
theorem executeTool_missing_param_witness :
    ∃ q, q ∈ requiredArgs "query_branch" ∧ ([] : List String).contains q = false ∧
      executeTool (some "query_branch") [] =
        DispatchOutcome.serverError ("missing 1 required positional argument: " ++ q) ∧
      httpStatus (executeTool (some "query_branch") []) = 500 :=
  executeTool_missing_required_param "query_branch" [] "branch" (by decide) (by decide) rfl
    (fun a ha => absurd ha (List.not_mem_nil a))

/-- C8 (counterexample): the metrics formatter is not deterministic in the
structured payload alone — over the same payload, two runs at different
clock readings produce different text, because the source appends a
"Generated: now" line from `datetime.now()`. -/
theorem formatMetrics_clock_dependent :
    formatMetrics [mrowErr] "FXOS" 7 "job/FXOS" "2026-01-01 00:00 UTC" ≠
    formatMetrics [mrowErr] "FXOS" 7 "job/FXOS" "2026-01-02 00:00 UTC" := by
  decide

/-- C8 (amended): formatting is deterministic given the structured payload
plus the clock reading: the query tool's formatter depends only on the
payload (it never reads the clock), and the metrics formatter produces
identical text whenever payload and clock reading coincide. -/
theorem formatters_deterministic :
    (∀ r : BranchResult, ∀ now1 now2 : String,
      formatBranchStatusAt now1 r = formatBranchStatusAt now2 r) ∧
    (∀ (rows : List MetricsRow) (jobType : String) (buildNumber : Nat)
        (jobPath now1 now2 : String), now1 = now2 →
      formatMetrics rows jobType buildNumber jobPath now1 =
      formatMetrics rows jobType buildNumber jobPath now2) :=
  ⟨fun _ _ _ => rfl, fun _ _ _ _ _ _ h => by rw [h]⟩

/-- Witness for the amended C8 at concrete payloads and clock readings. -/
theorem formatters_deterministic_witness :
    formatBranchStatusAt "2026-01-01 00:00 UTC" (errorVerdict fxos19 "boom") =
      formatBranchStatusAt "2026-01-02 00:00 UTC" (errorVerdict fxos19 "boom") ∧
    formatMetrics [mrowErr] "FXOS" 7 "job/FXOS" "2026-01-01 00:00 UTC" =
      formatMetrics [mrowErr] "FXOS" 7 "job/FXOS" "2026-01-01 00:00 UTC" :=
  ⟨formatters_deterministic.1 (errorVerdict fxos19 "boom")
      "2026-01-01 00:00 UTC" "2026-01-02 00:00 UTC",
   formatters_deterministic.2 [mrowErr] "FXOS" 7 "job/FXOS"
      "2026-01-01 00:00 UTC" "2026-01-01 00:00 UTC" rfl⟩

/-- C9: for every non-negative raw seconds count, the duration formatter
renders minutes and seconds zero-padded to (at least) two digits each, and
the minute:second rendering is correct for values under one minute, over one
hour, and exactly zero (zero renders as "00:00"): the minutes field is
`n / 60` and the seconds field `n % 60`, read back as decimal numbers. -/
theorem formatDuration_zero_padded_correct :
    (∀ n : Nat, formatDuration n = fmt02 (n / 60) ++ ":" ++ fmt02 (n % 60) ∧
      2 ≤ (fmt02 (n / 60)).length ∧ (fmt02 (n % 60)).length = 2) ∧
    formatDuration 0 = "00:00" ∧
    (∀ n : Nat, n < 60 → formatDuration n = "00:" ++ fmt02 n ∧ decimalVal (fmt02 n) = n) ∧
    (∀ k : Nat, k < 60 → formatDuration (3600 + k) = "60:" ++ fmt02 k ∧
      decimalVal (fmt02 k) = k) ∧
    formatDuration 65 = "01:05" ∧ formatDuration 3661 = "61:01" := by
  have hlen : ∀ m : Nat,
      (fmt02 m).length = (2 - (Nat.repr m).length) + (Nat.repr m).length := by
    intro m
    show (String.mk (List.replicate (2 - (Nat.repr m).length) '0') ++ Nat.repr m).length = _
    rw [String.length_append]
    congr 1
    show (List.replicate (2 - (Nat.repr m).length) '0').length = _
    rw [List.length_replicate]
  refine ⟨?_, by decide, by decide, by decide, by decide, by decide⟩
  intro n
  refine ⟨rfl, ?_, ?_⟩
  · rw [hlen]
    omega
  · rw [hlen]
    have hb : (Nat.repr (n % 60)).length ≤ 2 := by
      apply Nat.repr_length
      · omega
      · have := Nat.mod_lt n (show 0 < 60 by omega)
        norm_num
        omega
    omega

/-- Witness for C9 at the concrete value 59 seconds. -/
theorem formatDuration_correct_witness :
    formatDuration 59 = "00:" ++ fmt02 59 ∧ decimalVal (fmt02 59) = 59 :=
  formatDuration_zero_padded_correct.2.2.1 59 (by decide)
